import Mathlib

/-!
Verification of the AeroMate backend (src/backend/app) against its
specification.  The development shallowly embeds the conversation data
model, the LangGraph single-node chat graph built by `build_graph`, the
FastAPI endpoints of `app.py`, and the tools of `tools.py`,
`retriever.py` and `mcp.py`.  External collaborators (the Gemini model,
yfinance, SerpAPI, the vector store, psutil, the Manim MCP server) are
abstracted as explicit function parameters returning `Except`-style
outcomes, so that each source function's own control flow is embedded
faithfully.
-/

namespace AeroMate

/-- LangChain message kinds as used by the backend: `human` for user
messages, `ai` for model responses, `tool` for tool results
(`msg.type` in `app.py`). -/
inductive MsgType
  | human
  | ai
  | tool
deriving DecidableEq, Repr

/-- A tool invocation requested by the model inside an assistant
message (`tool_calls` on a LangChain AIMessage). -/
structure ToolCall where
  id : String
  name : String
  args : String
deriving DecidableEq, Repr

/-- A LangChain message as stored in `ChatState.messages`. -/
structure Message where
  type : MsgType
  content : String
  tool_calls : List ToolCall
  tool_call_id : Option String
deriving DecidableEq, Repr

/-- A user (human) message, as produced from `("user", request.message)`. -/
def humanMsg (content : String) : Message :=
  ⟨MsgType.human, content, [], none⟩

/-- The model's reply: `ChatGoogleGenerativeAI.invoke` always returns an
AIMessage carrying text content and possibly `tool_calls`. -/
structure AIResponse where
  content : String
  tool_calls : List ToolCall
deriving DecidableEq, Repr

/-- The assistant message built from the model's response. -/
def aiMsg (r : AIResponse) : Message :=
  ⟨MsgType.ai, r.content, r.tool_calls, none⟩

/-- The language model, abstracted: given the ordered message list it
either returns an AIMessage or fails (model unreachable / malformed
response), which in Python surfaces as an exception from `llm.invoke`. -/
def LLM : Type := List Message → Except String AIResponse

/-- The `InMemorySaver` checkpointer state: the committed message list
per `thread_id` (empty for a thread never referenced). -/
def Store : Type := String → List Message

/-- The store before any request was served. -/
def emptyStore : Store := fun _ => []

/-- Commit a new message list for one `thread_id`, leaving every other
thread's checkpoint untouched. -/
def updateStore (s : Store) (tid : String) (msgs : List Message) : Store :=
  fun t => if t = tid then msgs else s t

/-- Schema for incoming chat requests (`ChatRequest` in `app.py`). -/
structure ChatRequest where
  message : String
  thread_id : String
deriving DecidableEq, Repr

/-- The `add_messages` reducer on `ChatState.messages`: fresh messages
are appended to the existing list. -/
def add_messages (old new : List Message) : List Message :=
  old ++ new

/-- The full ordered message list the graph passes to the model for a
request: the thread's committed history extended by the new user
message. -/
def modelInput (store : Store) (req : ChatRequest) : List Message :=
  add_messages (store req.thread_id) [humanMsg req.message]

/-- Node `chatbot_node` from `app.py`: calls the model on the current message
list and returns the single response message as the state update. -/
def chatbot_node (llm : LLM) (messages : List Message) : Except String (List Message) :=
  (llm messages).map (fun response => [aiMsg response])

/-- One run of the compiled graph from `build_graph` (START → chatbot →
END) with the `InMemorySaver` checkpointer, for one thread.  LangGraph
checkpoints the input update (the new user message) before the first
superstep runs; if `chatbot_node` then raises, that input checkpoint
remains committed and the exception propagates, otherwise the node's
write is committed as well. -/
def graphInvoke (llm : LLM) (store : Store) (req : ChatRequest) :
    Store × Except String (List Message) :=
  let withInput := modelInput store req
  let store1 := updateStore store req.thread_id withInput
  match chatbot_node llm withInput with
  | Except.error e => (store1, Except.error e)
  | Except.ok out =>
      let final := add_messages withInput out
      (updateStore store1 req.thread_id final, Except.ok final)

/-- Endpoint `POST /chat` (`chat_endpoint` in `app.py`): runs the graph and
returns the content of the last message (`result["messages"][-1]`); a
failure is caught and re-raised as an HTTP 500, modelled as
`Except.error`. -/
def chat_endpoint (llm : LLM) (store : Store) (req : ChatRequest) :
    Store × Except String String :=
  match graphInvoke llm store req with
  | (s, Except.error e) => (s, Except.error e)
  | (s, Except.ok msgs) => (s, Except.ok (msgs.getLastD (humanMsg "")).content)

/-- An entry of the history payload returned by `GET /history`. -/
inductive Role
  | user
  | assistant
deriving DecidableEq, Repr

/-- One `{role, content}` record of the history payload. -/
structure HistEntry where
  role : Role
  content : String
deriving DecidableEq, Repr

/-- Role formatting in `get_chat_history`: `"user" if msg.type ==
"human" else "assistant"`. -/
def formatRole (t : MsgType) : Role :=
  if t = MsgType.human then Role.user else Role.assistant

/-- Endpoint `GET /history` (`get_chat_history` in `app.py`): reads
the thread's committed state and maps every stored message to a
`{role, content}` record (the empty-state branch returns `[]`, which
coincides with mapping over the empty list). -/
def get_chat_history (store : Store) (tid : String) : List HistEntry :=
  (store tid).map (fun msg => ⟨formatRole msg.type, msg.content⟩)

/-- Run a sequence of `/chat` requests in order, threading the store. -/
def runRequests (llm : LLM) : Store → List ChatRequest → Store
  | store, [] => store
  | store, r :: rs => runRequests llm (chat_endpoint llm store r).1 rs

/-- Run a sequence of `/chat` turns on one fixed thread. -/
def runTurns (llm : LLM) (tid : String) : Store → List String → Store
  | store, [] => store
  | store, m :: ms => runTurns llm tid (chat_endpoint llm store ⟨m, tid⟩).1 ms

/-- A model that never fails (every invocation returns an AIMessage). -/
def llmTotal (llm : LLM) : Prop :=
  ∀ msgs, ∃ r, llm msgs = Except.ok r

/-- The kinds of the stored messages, in order. -/
def typesOf (msgs : List Message) : List MsgType :=
  msgs.map (fun m => m.type)

/-- The model in streaming mode, abstracted as the ordered sequence of
content fragments emitted by the single chat-model call of a turn
(`on_chat_model_stream` events); the full AIMessage content of the same
deterministic generation is the concatenation of these fragments. -/
def StreamLLM : Type := List Message → Except String (List String)

/-- The non-streaming view of a deterministic streaming model: invoking
it yields an AIMessage whose content is the concatenation of the
fragments it would stream. -/
def toInvokeLLM (llmS : StreamLLM) : LLM :=
  fun msgs => (llmS msgs).map (fun chunks => ⟨String.join chunks, []⟩)

/-- Endpoint `POST /chatstream` (`chat_endpoint_stream` in `app.py`): runs the
graph via `astream_events`, yielding each `on_chat_model_stream`
fragment whose content is non-empty (`if content: yield content`); the
graph commits state exactly as in `invoke`. -/
def chat_endpoint_stream (llmS : StreamLLM) (store : Store) (req : ChatRequest) :
    Store × Except String (List String) :=
  let withInput := modelInput store req
  let store1 := updateStore store req.thread_id withInput
  match llmS withInput with
  | Except.error e => (store1, Except.error e)
  | Except.ok chunks =>
      let final := add_messages withInput [aiMsg ⟨String.join chunks, []⟩]
      (updateStore store1 req.thread_id final,
       Except.ok (chunks.filter (fun c => c ≠ "")))

/-! ## Tools (`tools.py`, `mcp.py`)

Each tool's interaction with the outside world is abstracted as an
explicit outcome parameter (`Except.error e` standing for a Python
exception raised by the library call); the tool's own control flow —
in particular which exceptions it catches — is embedded from the
source. -/

/-- The outcome of calling a registered tool: either a returned text
(`ok`) or an exception escaping to the caller (`raised`). -/
inductive ToolResult
  | ok (text : String)
  | raised (err : String)
deriving DecidableEq, Repr

/-- Whether a tool invocation returned (rather than raised). -/
def toolOk : ToolResult → Bool
  | ToolResult.ok _ => true
  | ToolResult.raised _ => false

/-- Tool `get_web_search` from `tools.py`: the body is a bare
`search.invoke(query)` with no exception handler, so a failure of the
search client escapes to the caller. -/
def get_web_search (search : String → Except String String) (query : String) : ToolResult :=
  match search query with
  | Except.ok text => ToolResult.ok text
  | Except.error e => ToolResult.raised e

/-- Tool `get_stock_price` from `tools.py`: the whole body is wrapped in
`try/except`, converting any failure of the yfinance lookup into an
error text.  The fetch outcome abstracts `stock.history(...)["Close"]
.iloc[-1]` and `stock.info.get("currency", "USD")` as a formatted price
string and a currency. -/
def get_stock_price (fetch : String → Except String (String × String))
    (ticker : String) : ToolResult :=
  match fetch ticker with
  | Except.ok (price, currency) =>
      ToolResult.ok ("The current price of " ++ ticker ++ " is " ++ price ++ " " ++ currency ++ ".")
  | Except.error e =>
      ToolResult.ok ("Error fetching stock price for " ++ ticker ++ ": " ++ e)

/-- Tool `get_currency_rate` from `tools.py`: builds the Yahoo ticker, then
inside `try/except` fetches the one-day history; `Except.ok none`
stands for an empty history frame, `Except.ok (some rate)` for a
formatted latest close price. -/
def get_currency_rate (fetchHist : String → Except String (Option String))
    (from_currency to_currency : String) : ToolResult :=
  let ticker := (from_currency ++ to_currency ++ "=X").toUpper
  match fetchHist ticker with
  | Except.error e =>
      ToolResult.ok ("Error fetching rate for " ++ ticker ++ ": " ++ e)
  | Except.ok none =>
      ToolResult.ok ("Could not find exchange rate for " ++ from_currency ++ " to " ++
        to_currency ++ ". Please check the currency codes.")
  | Except.ok (some rate) =>
      ToolResult.ok ("1 " ++ from_currency ++ " = " ++ rate ++ " " ++ to_currency ++
        " (Source: Yahoo Finance)")

/-- Python truthiness of an optional string (`if airline_filter:`,
`if not api_key:`): `None` and the empty string are falsy. -/
def pyTruthy : Option String → Bool
  | none => false
  | some s => s ≠ ""

/-- One entry of SerpAPI's `best_flights`, reduced to the fields
`get_flight_details` reads. -/
structure Flight where
  airline : String
  price : String
  durationMin : Nat
deriving DecidableEq, Repr

/-- The dictionary returned by a successful SerpAPI request:
an optional `"error"` entry and the `best_flights` list. -/
structure FlightsData where
  error : Option String
  best_flights : List Flight
deriving DecidableEq, Repr

/-- The flight lines built for the top three `best_flights`
(`duration // 60` converts minutes to whole hours). -/
def formatFlight (f : Flight) : String :=
  "- " ++ f.airline ++ ": ₹" ++ f.price ++ " | Duration: " ++ toString (f.durationMin / 60) ++ "h"

/-- Tool `get_flight_details` from `tools.py`: missing `SERPAPI_KEY` and
every failure mode of the search are converted to error texts inside
the function; `search` abstracts `GoogleSearch(params).get_dict()`,
with `Except.error` standing for an exception raised during the
request. -/
def get_flight_details (apiKey : Option String)
    (search : Except String FlightsData)
    (departure_id arrival_id date : String) : ToolResult :=
  if ¬ pyTruthy apiKey then
    ToolResult.ok "Error: SERPAPI_KEY is missing in environment variables."
  else
    match search with
    | Except.error e =>
        ToolResult.ok ("Error connecting to Google Flights: " ++ e)
    | Except.ok results =>
        match results.error with
        | some e => ToolResult.ok ("Google Flights Error: " ++ e)
        | none =>
            if results.best_flights.isEmpty then
              ToolResult.ok "No flights found for this date/route."
            else
              ToolResult.ok (String.intercalate "\n"
                (("✈️ Flights from " ++ departure_id ++ " to " ++ arrival_id ++ " on " ++ date ++ ":") ::
                  (results.best_flights.take 3).map formatFlight))

/-- The system probe readings `get_system_stats` formats (platform and
psutil values, pre-rendered as strings). -/
structure SysStats where
  os_info : String
  cpu : String
  ram_used : String
  ram_total : String
  ram_percent : String
  disk_total : String
  disk_free : String
deriving DecidableEq, Repr

/-- Tool `get_system_stats` from `tools.py`: no `try/except` anywhere in the
body, so an exception from any platform/psutil probe escapes to the
caller. -/
def get_system_stats (probe : Except String SysStats) : ToolResult :=
  match probe with
  | Except.ok s =>
      ToolResult.ok ("🖥️ **System Status**:\n- OS: " ++ s.os_info ++
        "\n- CPU Usage: " ++ s.cpu ++ "%\n- RAM: " ++ s.ram_used ++ " used / " ++
        s.ram_total ++ " total (" ++ s.ram_percent ++ ")\n- Disk Free: " ++
        s.disk_free ++ " / " ++ s.disk_total)
  | Except.error e => ToolResult.raised e

/-- The set of characters `get_calculator` accepts. -/
def allowed_chars : List Char := "0123456789+-*/(). ".data

/-- Tool `get_calculator` from `tools.py`: rejects any expression containing
a character outside `allowed_chars` before evaluating; otherwise
evaluates inside `try/except` with builtins disabled
(`pyEval` abstracts `eval(expression, \x7b"__builtins__": None\x7d, \x7b\x7d)`,
`Except.ok v` being the `str()` rendering of the value and
`Except.error e` a raised evaluation exception). -/
def get_calculator (pyEval : String → Except String String)
    (expression : String) : ToolResult :=
  if expression.data.all (fun c => c ∈ allowed_chars) then
    match pyEval expression with
    | Except.ok v => ToolResult.ok ("Result: " ++ v)
    | Except.error e => ToolResult.ok ("Calculation Error: " ++ e)
  else
    ToolResult.ok "Error: Invalid characters in math expression. Only numbers and basic operators allowed."

/-- The outcome of the MCP round-trip inside
`generate_manim_animation`: the tool text on success, a connection
refusal, or any other exception. -/
inductive ManimOutcome
  | ok (output_text : String)
  | connRefused
  | failed (e : String)
deriving DecidableEq, Repr

/-- Tool `generate_manim_animation` from `mcp.py` (backend): every failure
of the MCP call is caught (`except ConnectionRefusedError` and
`except Exception`) and rendered as an error text; on success the
returned text is parsed with `split`/`strip`/`replace` exactly as in
the source. -/
def generate_manim_animation (backendBase : String)
    (callTool : String → ManimOutcome) (manim_code : String) : ToolResult :=
  match callTool manim_code with
  | ManimOutcome.connRefused =>
      ToolResult.ok "Error: Could not connect to Manim Docker container. Is it running on port 9000?"
  | ManimOutcome.failed e =>
      ToolResult.ok ("Error executing Manim animation: " ++ e)
  | ManimOutcome.ok output_text =>
      let pieces := output_text.splitOn "SUCCESS_VIDEO_PATH:"
      if pieces.length > 1 then
        let internal_path := (pieces.getD 1 "").trim
        if (internal_path.splitOn "/app/media").length > 1 then
          let relative_path := internal_path.replace "/app/media" ""
          ToolResult.ok ("Animation generated successfully! Available at - " ++
            backendBase ++ "/assets" ++ relative_path)
        else
          ToolResult.ok "Error: Unexpected video path format received from Manim server."
      else
        ToolResult.ok "Error: Manim server did not return a video path."

/-! ## Knowledge-base search (`retriever.py`) -/

/-- A retrieved document, reduced to the fields `get_aviation_info`
reads (`page_content`, `metadata.get("publisher")`,
`metadata.get("type")`). -/
structure Doc where
  page_content : String
  publisher : Option String
  doctype : Option String
deriving DecidableEq, Repr

/-- The Chroma retriever, abstracted: a ranked document list for a
query and an optional `publisher` filter, with `Except.error` standing
for an exception raised during retrieval. -/
def VectorStore : Type := String → Option String → Except String (List Doc)

/-- The `filter_map` normalisation in `get_aviation_info`: a
case-insensitive lookup of common aliases, defaulting to the original
filter string. -/
def clean_filter (airline_filter : String) : String :=
  let l := airline_filter.toLower
  if l = "indigo" then "IndiGo"
  else if l = "air india" then "Air India"
  else if l = "airindia" then "Air India"
  else if l = "dgca" then "DGCA"
  else if l = "bcas" then "BCAS"
  else if l = "security" then "BCAS"
  else airline_filter

/-- Python's `sep.join(pieces)`. -/
def joinSep (sep : String) : List String → String
  | [] => ""
  | [x] => x
  | x :: xs => x ++ (sep ++ joinSep sep xs)

/-- The per-document line of `get_aviation_info`'s output. -/
def fmtDoc (d : Doc) : String :=
  "Source: " ++ (d.publisher.getD "Unknown" ++ (" (" ++ (d.doctype.getD "Doc" ++ (") | " ++ d.page_content))))

/-- The joined output for a non-empty result list. -/
def formatDocs (docs : List Doc) : String :=
  joinSep "\n\n" (docs.map fmtDoc)

/-- The text returned when even the unfiltered search finds nothing. -/
def noResultsText : String :=
  "No relevant documents found in the database."

/-- Tool `get_aviation_info` from `retriever.py`: optionally applies
the normalised `publisher` filter, retries once without the filter when
the filtered search returns no documents, and converts retrieval
exceptions into a "Retrieval Error" text.  `vs = none` models the
module-level `vector_store = None` branch. -/
def get_aviation_info (vs : Option VectorStore) (query : String)
    (airline_filter : Option String) : String :=
  match vs with
  | none => "Error: Knowledge base is offline."
  | some store =>
      let search_filter : Option String :=
        if pyTruthy airline_filter then some (clean_filter (airline_filter.getD ""))
        else none
      match store query search_filter with
      | Except.error e => "Retrieval Error: " ++ e
      | Except.ok docs =>
          if docs.isEmpty && pyTruthy airline_filter then
            match store query none with
            | Except.error e => "Retrieval Error: " ++ e
            | Except.ok docs2 =>
                if docs2.isEmpty then noResultsText else formatDocs docs2
          else if docs.isEmpty then noResultsText
          else formatDocs docs

/-! ## Concrete instances used for counterexamples and witnesses -/

/-- A model stub that always answers with the fixed text "hello". -/
def llmHello : LLM := fun _ => Except.ok ⟨"hello", []⟩

/-- A model stub whose transport always fails. -/
def llmDown : LLM := fun _ => Except.error "model unreachable"

/-- A model stub that always requests a tool call (and would keep doing
so on any follow-up invocation). -/
def llmToolCaller : LLM :=
  fun _ => Except.ok ⟨"", [⟨"call_1", "get_web_search", "latest aviation news"⟩]⟩

/-- A deterministic streaming model stub emitting three fragments, one
of them empty. -/
def llmStream : StreamLLM := fun _ => Except.ok ["Hel", "", "lo"]

/-- A single knowledge-base document used in concrete runs. -/
def docDGCA : Doc := ⟨"refund rules text", some "DGCA", some "Regulation"⟩

/-- A vector-store stub for which every filtered search is empty while
the unfiltered search finds one document. -/
def storeFilteredEmpty : VectorStore :=
  fun _ filt =>
    match filt with
    | some _ => Except.ok []
    | none => Except.ok [docDGCA]

/-! ## Basic lemmas about one `/chat` turn -/

theorem chat_endpoint_fst_ok (llm : LLM) (store : Store) (req : ChatRequest)
    (r : AIResponse) (h : llm (modelInput store req) = Except.ok r) (t : String) :
    (chat_endpoint llm store req).1 t =
      if t = req.thread_id then store req.thread_id ++ [humanMsg req.message, aiMsg r]
      else store t := by
  simp only [chat_endpoint, graphInvoke, chatbot_node, h, Except.map]
  by_cases ht : t = req.thread_id <;>
    simp [ht, updateStore, modelInput, add_messages]

theorem chat_endpoint_snd_ok (llm : LLM) (store : Store) (req : ChatRequest)
    (r : AIResponse) (h : llm (modelInput store req) = Except.ok r) :
    (chat_endpoint llm store req).2 = Except.ok r.content := by
  simp only [chat_endpoint, graphInvoke, chatbot_node, h, Except.map, add_messages]
  rw [List.getLastD_concat]
  rfl

theorem chat_endpoint_fst_err (llm : LLM) (store : Store) (req : ChatRequest)
    (e : String) (h : llm (modelInput store req) = Except.error e) (t : String) :
    (chat_endpoint llm store req).1 t =
      if t = req.thread_id then store req.thread_id ++ [humanMsg req.message]
      else store t := by
  simp only [chat_endpoint, graphInvoke, chatbot_node, h, Except.map]
  by_cases ht : t = req.thread_id <;>
    simp [ht, updateStore, modelInput, add_messages]

theorem chat_endpoint_snd_err (llm : LLM) (store : Store) (req : ChatRequest)
    (e : String) (h : llm (modelInput store req) = Except.error e) :
    (chat_endpoint llm store req).2 = Except.error e := by
  simp only [chat_endpoint, graphInvoke, chatbot_node, h, Except.map]

/-- A turn on one thread leaves every other thread's checkpoint
untouched. -/
theorem chat_endpoint_fst_ne (llm : LLM) (store : Store) (req : ChatRequest)
    (t : String) (ht : t ≠ req.thread_id) :
    (chat_endpoint llm store req).1 t = store t := by
  cases h : llm (modelInput store req) with
  | error e => rw [chat_endpoint_fst_err llm store req e h t, if_neg ht]
  | ok r => rw [chat_endpoint_fst_ok llm store req r h t, if_neg ht]

/-- A turn's effect and result depend only on its own thread's
checkpoint. -/
theorem chat_endpoint_local (llm : LLM) (s1 s2 : Store) (req : ChatRequest)
    (h : s1 req.thread_id = s2 req.thread_id) :
    (chat_endpoint llm s1 req).1 req.thread_id = (chat_endpoint llm s2 req).1 req.thread_id ∧
    (chat_endpoint llm s1 req).2 = (chat_endpoint llm s2 req).2 := by
  have hin : modelInput s1 req = modelInput s2 req := by
    simp [modelInput, h]
  cases hll : llm (modelInput s2 req) with
  | error e =>
      have h1 : llm (modelInput s1 req) = Except.error e := by rw [hin, hll]
      constructor
      · rw [chat_endpoint_fst_err llm s1 req e h1 _, chat_endpoint_fst_err llm s2 req e hll _]
        simp [h]
      · rw [chat_endpoint_snd_err llm s1 req e h1, chat_endpoint_snd_err llm s2 req e hll]
  | ok r =>
      have h1 : llm (modelInput s1 req) = Except.ok r := by rw [hin, hll]
      constructor
      · rw [chat_endpoint_fst_ok llm s1 req r h1 _, chat_endpoint_fst_ok llm s2 req r hll _]
        simp [h]
      · rw [chat_endpoint_snd_ok llm s1 req r h1, chat_endpoint_snd_ok llm s2 req r hll]

/-- Running a batch of requests touches no thread outside the batch. -/
theorem runRequests_fst_ne (llm : LLM) (rs : List ChatRequest) :
    ∀ (store : Store) (t : String), t ∉ rs.map (fun r => r.thread_id) →
      runRequests llm store rs t = store t := by
  induction rs with
  | nil => intro store t _; rfl
  | cons r rs ih =>
      intro store t ht
      simp only [List.map_cons, List.mem_cons, not_or] at ht
      rw [runRequests, ih _ t ht.2, chat_endpoint_fst_ne llm store r t ht.1]

/-- For a never-failing model, each turn appends exactly one user and
one assistant message to its thread, so the stored message kinds after
a run of turns follow the `[human, ai]` repetition. -/
theorem runTurns_typesOf (llm : LLM) (h : llmTotal llm) (tid : String) :
    ∀ (ms : List String) (store : Store),
      typesOf (runTurns llm tid store ms tid) =
        typesOf (store tid) ++ (List.replicate ms.length [MsgType.human, MsgType.ai]).flatten := by
  intro ms
  induction ms with
  | nil => intro store; simp [runTurns]
  | cons m rest ih =>
      intro store
      obtain ⟨r, hr⟩ := h (modelInput store ⟨m, tid⟩)
      rw [runTurns, ih]
      have hfst := chat_endpoint_fst_ok llm store ⟨m, tid⟩ r hr tid
      simp only [if_pos rfl] at hfst
      rw [hfst]
      simp [typesOf, humanMsg, aiMsg, List.replicate_succ]

/-- The role pattern of the `[human, ai]` repetition after formatting. -/
theorem formatRole_pattern (n : Nat) :
    (List.replicate n [MsgType.human, MsgType.ai]).flatten.map formatRole =
      (List.replicate n [Role.user, Role.assistant]).flatten := by
  induction n with
  | zero => rfl
  | succ k ih => simp [List.replicate_succ, ih, formatRole]

/-- Length of the alternating role pattern. -/
theorem rolePattern_length (n : Nat) :
    (List.replicate n [Role.user, Role.assistant]).flatten.length = 2 * n := by
  induction n with
  | zero => rfl
  | succ k ih => simp [List.replicate_succ, ih]; omega

/-- The `[human, ai]` repetition never contains a tool message kind. -/
theorem pattern_no_tool (n : Nat) :
    ∀ t ∈ (List.replicate n [MsgType.human, MsgType.ai]).flatten, t ≠ MsgType.tool := by
  induction n with
  | zero => intro t ht; simp at ht
  | succ k ih =>
      intro t ht
      simp only [List.replicate_succ, List.flatten_cons, List.mem_append, List.mem_cons] at ht
      rcases ht with (h1 | h1 | h1) | h1
      · subst h1; intro hc; cases hc
      · subst h1; intro hc; cases hc
      · simp at h1
      · exact ih t h1

/-- C1: after any sequence of N successful turns on one thread, the
history endpoint returns exactly 2N entries whose roles follow the
user/assistant alternation beginning with user, and the thread's stored
state contains no tool messages (there are no tool-calling rounds). -/
theorem c1_history_alternation (llm : LLM) (h : llmTotal llm) (tid : String)
    (ms : List String) :
    (get_chat_history (runTurns llm tid emptyStore ms) tid).length = 2 * ms.length ∧
    (get_chat_history (runTurns llm tid emptyStore ms) tid).map (fun en => en.role) =
      (List.replicate ms.length [Role.user, Role.assistant]).flatten ∧
    ∀ msg ∈ runTurns llm tid emptyStore ms tid, msg.type ≠ MsgType.tool := by
  have htypes := runTurns_typesOf llm h tid ms emptyStore
  simp only [emptyStore, typesOf, List.map_nil, List.nil_append] at htypes
  have hroles : (get_chat_history (runTurns llm tid emptyStore ms) tid).map (fun en => en.role) =
      (List.replicate ms.length [Role.user, Role.assistant]).flatten := by
    have : (get_chat_history (runTurns llm tid emptyStore ms) tid).map (fun en => en.role) =
        ((runTurns llm tid emptyStore ms) tid).map (fun msg => formatRole msg.type) := by
      simp [get_chat_history]
    rw [this]
    have hmap : ((runTurns llm tid emptyStore ms) tid).map (fun msg => formatRole msg.type) =
        (((runTurns llm tid emptyStore ms) tid).map (fun msg => msg.type)).map formatRole := by
      simp
    rw [hmap]
    have : ((runTurns llm tid emptyStore ms) tid).map (fun msg => msg.type) =
        (List.replicate ms.length [MsgType.human, MsgType.ai]).flatten := htypes
    rw [this, formatRole_pattern]
  refine ⟨?_, hroles, ?_⟩
  · have hlen : (get_chat_history (runTurns llm tid emptyStore ms) tid).length =
        ((get_chat_history (runTurns llm tid emptyStore ms) tid).map (fun en => en.role)).length := by
      simp
    rw [hlen, hroles, rolePattern_length]
  · intro msg hmsg
    have htype : msg.type ∈ (List.replicate ms.length [MsgType.human, MsgType.ai]).flatten := by
      rw [← htypes]
      exact List.mem_map_of_mem (fun m => m.type) hmsg
    exact pattern_no_tool ms.length msg.type htype

/-- C1 witness: two concrete turns with a deterministic stub model
produce the four-entry user/assistant alternation. -/
theorem c1_history_alternation_witness :
    llmTotal llmHello ∧
    (get_chat_history (runTurns llmHello "u1" emptyStore ["q1", "q2"]) "u1").map
        (fun en => en.role) =
      [Role.user, Role.assistant, Role.user, Role.assistant] := by
  have htot : llmTotal llmHello := fun _ => ⟨⟨"hello", []⟩, rfl⟩
  refine ⟨htot, ?_⟩
  have := (c1_history_alternation llmHello htot "u1" ["q1", "q2"]).2.1
  simpa using this

/-- C2 counterexample: a model response carrying one tool_call is
committed as-is and produces zero tool messages — the requested
tool_call is never dispatched, so there is no tool message matched back
to the originating `tool_call_id` and the model is never re-invoked. -/
theorem c2_counterexample_no_dispatch :
    ((chat_endpoint llmToolCaller emptyStore ⟨"find news", "t2"⟩).1 "t2").countP
        (fun mm => mm.type == MsgType.tool) = 0 ∧
    ((chat_endpoint llmToolCaller emptyStore ⟨"find news", "t2"⟩).1 "t2").countP
        (fun mm => !mm.tool_calls.isEmpty) = 1 := by
  decide

/-- C2 (amended): the orchestrator performs no tool dispatch at all:
whatever assistant message the single model invocation returns — with
or without tool_calls — is appended verbatim as the turn's last
message, no tool message is ever added, and the turn ends there. -/
theorem c2_single_round_no_dispatch (llm : LLM) (store : Store) (tid m : String)
    (r : AIResponse) (h : llm (modelInput store ⟨m, tid⟩) = Except.ok r) :
    (chat_endpoint llm store ⟨m, tid⟩).1 tid = store tid ++ [humanMsg m, aiMsg r] ∧
    ((chat_endpoint llm store ⟨m, tid⟩).1 tid).countP (fun mm => mm.type == MsgType.tool) =
      (store tid).countP (fun mm => mm.type == MsgType.tool) ∧
    (chat_endpoint llm store ⟨m, tid⟩).2 = Except.ok r.content := by
  have hfst := chat_endpoint_fst_ok llm store ⟨m, tid⟩ r h tid
  simp only [if_pos rfl] at hfst
  refine ⟨hfst, ?_, chat_endpoint_snd_ok llm store ⟨m, tid⟩ r h⟩
  rw [hfst]
  simp [List.countP_append, List.countP_cons, humanMsg, aiMsg]

/-- C2 witness: concrete single-round run with a tool-call-free
response. -/
theorem c2_single_round_no_dispatch_witness :
    llmHello (modelInput emptyStore ⟨"hi", "t"⟩) = Except.ok ⟨"hello", []⟩ ∧
    (chat_endpoint llmHello emptyStore ⟨"hi", "t"⟩).1 "t" =
      [humanMsg "hi", aiMsg ⟨"hello", []⟩] := by
  refine ⟨rfl, ?_⟩
  have := (c2_single_round_no_dispatch llmHello emptyStore "t" "hi" ⟨"hello", []⟩ rfl).1
  simpa [emptyStore] using this

/-- C6 counterexample: when the model call fails, the endpoint reports
the service error, yet the thread's stored history is no longer what it
was before the turn — the new user message has been committed by the
input checkpoint. -/
theorem c6_counterexample_partial_commit :
    (chat_endpoint llmDown emptyStore ⟨"hi", "t1"⟩).2 = Except.error "model unreachable" ∧
    (chat_endpoint llmDown emptyStore ⟨"hi", "t1"⟩).1 "t1" ≠ emptyStore "t1" := by
  exact ⟨rfl, by decide⟩

/-- C6 (amended): a model failure is reported to the caller as a
service-level error, but the turn is not free of commits: the thread's
stored history afterwards equals the prior history extended by the new
user message (and nothing else). -/
theorem c6_model_failure_commits_user (llm : LLM) (store : Store) (tid m e : String)
    (h : llm (modelInput store ⟨m, tid⟩) = Except.error e) :
    (chat_endpoint llm store ⟨m, tid⟩).2 = Except.error e ∧
    (chat_endpoint llm store ⟨m, tid⟩).1 tid = store tid ++ [humanMsg m] := by
  refine ⟨chat_endpoint_snd_err llm store ⟨m, tid⟩ e h, ?_⟩
  have hfst := chat_endpoint_fst_err llm store ⟨m, tid⟩ e h tid
  simpa using hfst

/-- C6 witness: concrete failing turn. -/
theorem c6_model_failure_commits_user_witness :
    llmDown (modelInput emptyStore ⟨"hi", "t1"⟩) = Except.error "model unreachable" ∧
    (chat_endpoint llmDown emptyStore ⟨"hi", "t1"⟩).1 "t1" = [humanMsg "hi"] := by
  refine ⟨rfl, ?_⟩
  have := (c6_model_failure_commits_user llmDown emptyStore "t1" "hi" "model unreachable" rfl).2
  simpa [emptyStore] using this

/-- C7 counterexample: with a model that persistently requests tool
calls, the turn still ends right after the single model invocation:
two messages are committed, zero tool-calling rounds happen, and the
(empty) content of the tool-call message is returned — there is no
round ceiling that this run could be configured against. -/
theorem c7_counterexample_no_ceiling :
    ((chat_endpoint llmToolCaller emptyStore ⟨"loop", "t7"⟩).1 "t7").countP
        (fun mm => mm.type == MsgType.tool) = 0 ∧
    ((chat_endpoint llmToolCaller emptyStore ⟨"loop", "t7"⟩).1 "t7").length = 2 ∧
    (chat_endpoint llmToolCaller emptyStore ⟨"loop", "t7"⟩).2 = Except.ok "" := by
  exact ⟨by decide, by decide, rfl⟩

/-- C7 (amended): the compiled graph is acyclic (START → chatbot →
END): every turn performs exactly one model invocation and zero
tool-calling rounds, appending only the user message and, on success,
one assistant message — termination is structural, with no configurable
round ceiling present. -/
theorem c7_single_invocation_terminates (llm : LLM) (store : Store) (tid m : String) :
    typesOf ((chat_endpoint llm store ⟨m, tid⟩).1 tid) =
        typesOf (store tid) ++ [MsgType.human] ∨
    typesOf ((chat_endpoint llm store ⟨m, tid⟩).1 tid) =
        typesOf (store tid) ++ [MsgType.human, MsgType.ai] := by
  cases hll : llm (modelInput store ⟨m, tid⟩) with
  | error e =>
      left
      have hfst := chat_endpoint_fst_err llm store ⟨m, tid⟩ e hll tid
      simp only [if_pos rfl] at hfst
      rw [hfst]
      simp [typesOf, humanMsg]
  | ok r =>
      right
      have hfst := chat_endpoint_fst_ok llm store ⟨m, tid⟩ r hll tid
      simp only [if_pos rfl] at hfst
      rw [hfst]
      simp [typesOf, humanMsg, aiMsg]

/-- C8: a thread_id never referenced by any prior request has the empty
committed state, so the history endpoint returns the empty history (the
endpoint is a total function — retrieval of an unknown thread is never
an error). -/
theorem c8_unknown_thread_empty_history (llm : LLM) (reqs : List ChatRequest)
    (tid : String) (h : tid ∉ reqs.map (fun r => r.thread_id)) :
    get_chat_history (runRequests llm emptyStore reqs) tid = [] := by
  unfold get_chat_history
  rw [runRequests_fst_ne llm reqs emptyStore tid h]
  rfl

/-- C8 witness: after a turn on thread "alice", thread "bob" still has
an empty history. -/
theorem c8_unknown_thread_empty_history_witness :
    "bob" ∉ [ChatRequest.mk "hi there" "alice"].map (fun r => r.thread_id) ∧
    get_chat_history (runRequests llmHello emptyStore [ChatRequest.mk "hi there" "alice"]) "bob" = [] := by
  refine ⟨by decide, ?_⟩
  exact c8_unknown_thread_empty_history llmHello [ChatRequest.mk "hi there" "alice"] "bob" (by decide)

/-- C9: turns on distinct thread_ids do not interfere: a turn on thread
B leaves thread A's stored history unchanged, the messages committed
under B are exactly those committed had the turn on A never run, and
the model call of the turn on B sees only B's own history plus its new
user message. -/
theorem c9_thread_noninterference (llm : LLM) (store : Store) (tA tB mA mB : String)
    (h : tA ≠ tB) :
    (chat_endpoint llm (chat_endpoint llm store ⟨mA, tA⟩).1 ⟨mB, tB⟩).1 tA =
      (chat_endpoint llm store ⟨mA, tA⟩).1 tA ∧
    (chat_endpoint llm (chat_endpoint llm store ⟨mA, tA⟩).1 ⟨mB, tB⟩).1 tB =
      (chat_endpoint llm store ⟨mB, tB⟩).1 tB ∧
    (chat_endpoint llm (chat_endpoint llm store ⟨mA, tA⟩).1 ⟨mB, tB⟩).2 =
      (chat_endpoint llm store ⟨mB, tB⟩).2 ∧
    modelInput (chat_endpoint llm store ⟨mA, tA⟩).1 ⟨mB, tB⟩ = store tB ++ [humanMsg mB] := by
  have hframe : (chat_endpoint llm store ⟨mA, tA⟩).1 tB = store tB :=
    chat_endpoint_fst_ne llm store ⟨mA, tA⟩ tB (Ne.symm h)
  have hlocal := chat_endpoint_local llm (chat_endpoint llm store ⟨mA, tA⟩).1 store ⟨mB, tB⟩ hframe
  refine ⟨?_, hlocal.1, hlocal.2, ?_⟩
  · exact chat_endpoint_fst_ne llm (chat_endpoint llm store ⟨mA, tA⟩).1 ⟨mB, tB⟩ tA h
  · simp [modelInput, add_messages, hframe]

/-- C9 witness: two concrete turns on threads "a" and "b". -/
theorem c9_thread_noninterference_witness :
    ("a" : String) ≠ "b" ∧
    (chat_endpoint llmHello (chat_endpoint llmHello emptyStore ⟨"m1", "a"⟩).1 ⟨"m2", "b"⟩).1 "a" =
      (chat_endpoint llmHello emptyStore ⟨"m1", "a"⟩).1 "a" := by
  refine ⟨by decide, ?_⟩
  exact (c9_thread_noninterference llmHello emptyStore "a" "b" "m1" "m2" (by decide)).1

/-- String concatenation folds distribute over an appended seed. -/
theorem foldl_append_seed (l : List String) :
    ∀ (x y : String), l.foldl (fun a b => a ++ b) (x ++ y) = x ++ l.foldl (fun a b => a ++ b) y := by
  induction l with
  | nil => intro x y; rfl
  | cons a l ih =>
      intro x y
      show l.foldl (fun a b => a ++ b) (x ++ y ++ a) = _
      rw [String.append_assoc, ih]
      rfl

/-- Joining a cons. -/
theorem join_cons (a : String) (l : List String) :
    String.join (a :: l) = a ++ String.join l := by
  show l.foldl (fun a b => a ++ b) ("" ++ a) = a ++ l.foldl (fun a b => a ++ b) ""
  rw [String.empty_append, ← String.append_empty a, foldl_append_seed, String.append_empty]

/-- Dropping empty fragments does not change the concatenation. -/
theorem join_filter_nonempty (l : List String) :
    String.join (l.filter (fun c => c ≠ "")) = String.join l := by
  induction l with
  | nil => rfl
  | cons a l ih =>
      simp only [ne_eq, decide_not] at ih
      by_cases ha : a = ""
      · subst ha
        simpa [List.filter_cons, join_cons, String.empty_append] using ih
      · simp [List.filter_cons, ha, join_cons, ih]

/-- C4: for the same request and a deterministic model, the streaming
endpoint yields exactly the non-empty fragments of the single
(final) model generation, in order and without duplication (a sublist
of the generation), and their concatenation equals the full-response
endpoint's answer text. -/
theorem c4_stream_equals_full (llmS : StreamLLM) (store : Store) (req : ChatRequest)
    (chunks : List String) (h : llmS (modelInput store req) = Except.ok chunks) :
    (chat_endpoint_stream llmS store req).2 = Except.ok (chunks.filter (fun c => c ≠ "")) ∧
    String.join (chunks.filter (fun c => c ≠ "")) = String.join chunks ∧
    (chat_endpoint (toInvokeLLM llmS) store req).2 = Except.ok (String.join chunks) ∧
    List.Sublist (chunks.filter (fun c => c ≠ "")) chunks := by
  refine ⟨?_, join_filter_nonempty chunks, ?_, List.filter_sublist chunks⟩
  · simp only [chat_endpoint_stream, h]
  · have hinv : toInvokeLLM llmS (modelInput store req) =
        Except.ok ⟨String.join chunks, []⟩ := by
      simp [toInvokeLLM, h, Except.map]
    exact chat_endpoint_snd_ok (toInvokeLLM llmS) store req ⟨String.join chunks, []⟩ hinv

/-- C4 witness: a concrete three-fragment generation (one fragment
empty); the streamed fragments concatenate to the full response. -/
theorem c4_stream_equals_full_witness :
    llmStream (modelInput emptyStore ⟨"hi", "t"⟩) = Except.ok ["Hel", "", "lo"] ∧
    (chat_endpoint_stream llmStream emptyStore ⟨"hi", "t"⟩).2 = Except.ok ["Hel", "lo"] ∧
    (chat_endpoint (toInvokeLLM llmStream) emptyStore ⟨"hi", "t"⟩).2 = Except.ok "Hello" := by
  have hc := c4_stream_equals_full llmStream emptyStore ⟨"hi", "t"⟩ ["Hel", "", "lo"] rfl
  refine ⟨rfl, ?_, ?_⟩
  · have := hc.1
    simpa using this
  · have := hc.2.2.1
    simpa using this

/-- A string starting with the formatted-source prefix keeps its first
character under appending. -/
theorem head_of_append {s : String} (h : s.data.head? = some 'S') (t : String) :
    (s ++ t).data.head? = some 'S' := by
  rw [String.data_append]
  cases hd : s.data with
  | nil => simp [hd] at h
  | cons c cs =>
      simp only [hd, List.cons_append, List.head?_cons]
      simpa [hd] using h

/-- Every formatted document line begins with the character of
"Source: ". -/
theorem fmtDoc_head (d : Doc) : (fmtDoc d).data.head? = some 'S' := by
  have : (fmtDoc d) = "Source: " ++ (d.publisher.getD "Unknown" ++ (" (" ++ (d.doctype.getD "Doc" ++ (") | " ++ d.page_content)))) := rfl
  rw [this, String.data_append]
  rfl

/-- The formatted output for a non-empty document list begins with the
"Source: " prefix. -/
theorem formatDocs_head (d : Doc) (ds : List Doc) :
    (formatDocs (d :: ds)).data.head? = some 'S' := by
  cases ds with
  | nil =>
      show (joinSep "\n\n" [fmtDoc d]).data.head? = some 'S'
      simpa [joinSep] using fmtDoc_head d
  | cons d2 ds2 =>
      show (joinSep "\n\n" (fmtDoc d :: fmtDoc d2 :: ds2.map fmtDoc)).data.head? = some 'S'
      simp only [joinSep]
      exact head_of_append (fmtDoc_head d) _

/-- The formatted output for a non-empty document list is never the
no-results text. -/
theorem formatDocs_ne_noResults (d : Doc) (ds : List Doc) :
    formatDocs (d :: ds) ≠ noResultsText := by
  intro hcontra
  have h1 := formatDocs_head d ds
  rw [hcontra] at h1
  have h2 : noResultsText.data.head? = some 'N' := rfl
  rw [h2] at h1
  cases h1

/-- C5: for any query and any non-empty filter value, when the filtered
search returns zero documents the tool retries the same query once with
the filter removed and returns the result computed from that unfiltered
retry; the no-results text is returned exactly when the unfiltered
retry is also empty. -/
theorem c5_filter_fallback (store : VectorStore) (q f : String) (docs2 : List Doc)
    (hf : f ≠ "") (hfilt : store q (some (clean_filter f)) = Except.ok [])
    (hun : store q none = Except.ok docs2) :
    get_aviation_info (some store) q (some f) =
      (if docs2.isEmpty then noResultsText else formatDocs docs2) ∧
    (get_aviation_info (some store) q (some f) = noResultsText ↔ docs2 = []) := by
  have htr : pyTruthy (some f) = true := by
    simp [pyTruthy, hf]
  have hmain : get_aviation_info (some store) q (some f) =
      (if docs2.isEmpty then noResultsText else formatDocs docs2) := by
    simp only [get_aviation_info, htr, if_pos, Option.getD_some, hfilt, hun,
      List.isEmpty_nil, Bool.true_and]
  refine ⟨hmain, ?_⟩
  rw [hmain]
  cases docs2 with
  | nil => simp
  | cons d ds =>
      simp only [List.isEmpty_cons, if_neg Bool.false_ne_true]
      constructor
      · intro hcontra
        exact absurd hcontra (formatDocs_ne_noResults d ds)
      · intro hcontra
        cases hcontra

/-- C5 witness: a concrete store whose filtered search is empty but
whose unfiltered search holds one document; the tool returns the
formatted document, not the no-results text. -/
theorem c5_filter_fallback_witness :
    ("dgca" : String) ≠ "" ∧
    storeFilteredEmpty "refund rules" (some (clean_filter "dgca")) = Except.ok [] ∧
    get_aviation_info (some storeFilteredEmpty) "refund rules" (some "dgca") =
      formatDocs [docDGCA] := by
  refine ⟨by decide, rfl, ?_⟩
  have := (c5_filter_fallback storeFilteredEmpty "refund rules" "dgca" [docDGCA]
    (by decide) rfl rfl).1
  simpa using this

/-- C3 counterexample: the registered web-search tool has no exception
handler; when its search client raises, the exception escapes through
the tool to its caller. -/
theorem c3_counterexample_web_search_raises :
    get_web_search (fun _ => Except.error "network unreachable") "latest aviation news" =
      ToolResult.raised "network unreachable" := rfl

/-- C3 (amended): the stock, currency, flight, calculator, Manim and
knowledge-base tools convert every execution failure to a descriptive
text result and never raise; `get_web_search` and `get_system_stats`
have no handler and propagate any exception from their underlying
probes. -/
theorem c3_tool_error_containment :
    (∀ fetch ticker, toolOk (get_stock_price fetch ticker) = true) ∧
    (∀ fetchHist fc tc, toolOk (get_currency_rate fetchHist fc tc) = true) ∧
    (∀ key search dep arr date, toolOk (get_flight_details key search dep arr date) = true) ∧
    (∀ pyEval expr, toolOk (get_calculator pyEval expr) = true) ∧
    (∀ base callTool code, toolOk (generate_manim_animation base callTool code) = true) ∧
    (∀ e q af, get_aviation_info (some (fun _ _ => Except.error e)) q af =
      "Retrieval Error: " ++ e) ∧
    (∀ e q, get_web_search (fun _ => Except.error e) q = ToolResult.raised e) ∧
    (∀ e, get_system_stats (Except.error e) = ToolResult.raised e) := by
  refine ⟨?_, ?_, ?_, ?_, ?_, ?_, ?_, ?_⟩
  · intro fetch ticker
    unfold get_stock_price
    cases fetch ticker with
    | ok pc => cases pc; rfl
    | error e => rfl
  · intro fetchHist fc tc
    unfold get_currency_rate
    cases h : fetchHist ((fc ++ tc ++ "=X").toUpper) with
    | ok o => cases o <;> simp [h, toolOk]
    | error e => simp [h, toolOk]
  · intro key search dep arr date
    unfold get_flight_details
    split
    · rfl
    · split
      · rfl
      · split
        · rfl
        · split <;> rfl
  · intro pyEval expr
    unfold get_calculator
    split
    · cases pyEval expr <;> rfl
    · rfl
  · intro base callTool code
    unfold generate_manim_animation
    split
    · rfl
    · rfl
    · dsimp only
      split
      · split <;> rfl
      · rfl
  · intro e q af
    unfold get_aviation_info
    cases haf : pyTruthy af <;> simp [haf]
  · intro e q
    rfl
  · intro e
    rfl

/-- C10: the calculator returns a text result for every input and never
raises; an expression containing a character outside the allowed set is
rejected with the invalid-characters text without the evaluator being
consulted at all, and otherwise the evaluator runs with any failure
converted to a "Calculation Error" text. -/
theorem c10_calculator_safety (pyEval pyEval2 : String → Except String String)
    (expression : String) :
    toolOk (get_calculator pyEval expression) = true ∧
    (expression.data.all (fun c => c ∈ allowed_chars) = false →
      get_calculator pyEval expression =
        ToolResult.ok "Error: Invalid characters in math expression. Only numbers and basic operators allowed." ∧
      get_calculator pyEval expression = get_calculator pyEval2 expression) ∧
    (∀ v, expression.data.all (fun c => c ∈ allowed_chars) = true →
      pyEval expression = Except.ok v →
      get_calculator pyEval expression = ToolResult.ok ("Result: " ++ v)) ∧
    (∀ e, expression.data.all (fun c => c ∈ allowed_chars) = true →
      pyEval expression = Except.error e →
      get_calculator pyEval expression = ToolResult.ok ("Calculation Error: " ++ e)) := by
  refine ⟨?_, ?_, ?_, ?_⟩
  · unfold get_calculator
    split
    · cases pyEval expression <;> rfl
    · rfl
  · intro hall
    unfold get_calculator
    rw [hall]
    exact ⟨rfl, rfl⟩
  · intro v hall hev
    unfold get_calculator
    rw [hall, if_pos rfl, hev]
  · intro e hall hev
    unfold get_calculator
    rw [hall, if_pos rfl, hev]

/-- C10 witness: a concrete invalid expression short-circuits; a
concrete valid expression evaluates. -/
theorem c10_calculator_safety_witness :
    ("2+#".data.all (fun c => c ∈ allowed_chars)) = false ∧
    get_calculator (fun _ => Except.ok "42") "2+#" =
      ToolResult.ok "Error: Invalid characters in math expression. Only numbers and basic operators allowed." ∧
    ("6*7".data.all (fun c => c ∈ allowed_chars)) = true ∧
    get_calculator (fun _ => Except.ok "42") "6*7" = ToolResult.ok ("Result: " ++ "42") := by
  refine ⟨by decide, ?_, by decide, ?_⟩
  · exact ((c10_calculator_safety (fun _ => Except.ok "42") (fun _ => Except.error "boom") "2+#").2.1 (by decide)).1
  · exact (c10_calculator_safety (fun _ => Except.ok "42") (fun _ => Except.error "boom") "6*7").2.2.1 "42" (by decide) rfl

end AeroMate
